import Mathlib

/-!
Verification development for the dynamic business-intelligence query agent
(backend/routes_v2/openai_routes_v2.py and backend/chart_generator_v2.py).

The Python source is shallowly embedded: every definition below mirrors a
function or a code path of the source file it names in its doc comment.
Loosely-typed Python values (the JSON intent emitted by the language model)
are embedded as the inductive type PyVal together with Python truthiness.
-/

namespace BIAgent

/-- Characterwise prefix test over char lists, used to embed the Python
substring operator `in`. -/
def charsHavePre : List Char → List Char → Bool
  | [], _ => true
  | _ :: _, [] => false
  | a :: as, b :: bs => a = b && charsHavePre as bs

/-- Substring test over char lists: the first list occurs contiguously in
the second. -/
def charsHaveSub : List Char → List Char → Bool
  | pat, [] => pat.isEmpty
  | pat, c :: rest => charsHavePre pat (c :: rest) || charsHaveSub pat rest

/-- Embeds the Python expression `pat in s` on strings (substring
containment). -/
def strContains (s pat : String) : Bool :=
  charsHaveSub pat.toList s.toList

/-- Embeds the Python string method lower (ASCII). -/
def strLower (s : String) : String :=
  String.mk (s.toList.map Char.toLower)

/-- Whitespace in the sense of the Python strip method. -/
def isSpaceChar (c : Char) : Bool :=
  c = ' ' || c = '\t' || c = '\n' || c = '\r'

/-- Embeds the Python string method strip. -/
def strTrim (s : String) : String :=
  String.mk (((s.toList.dropWhile isSpaceChar).reverse.dropWhile isSpaceChar).reverse)

/-- Embeds the Python string method endswith. -/
def strEndsWith (s pat : String) : Bool :=
  charsHavePre pat.toList.reverse s.toList.reverse

/-- Lexicographic comparison of char lists, used for the string case of
the scalar SQL ordering. -/
def charsLt : List Char → List Char → Bool
  | [], [] => false
  | [], _ :: _ => true
  | _ :: _, [] => false
  | a :: as, b :: bs => a < b || (a = b && charsLt as bs)

/-- Primitive Python/JSON scalars appearing in the intent produced by the
language model. -/
inductive PyPrim where
  | pNone
  | pBool (b : Bool)
  | pInt (n : Int)
  | pStr (s : String)
deriving DecidableEq, Repr

/-- A value stored under a key of an operator mapping in a filter entry:
either a scalar or a list of scalars (the two-element `between` bound). -/
inductive PyEntry where
  | prim (p : PyPrim)
  | vList (l : List PyPrim)
deriving DecidableEq, Repr

/-- Embedding of a loosely-typed Python/JSON value as it appears in the
intent fields (a filter value, a limit value): a scalar, a list of
scalars, or a one-level mapping. The modeled code paths never consume
deeper nesting. -/
inductive PyVal where
  | prim (p : PyPrim)
  | vList (l : List PyPrim)
  | vDict (l : List (String × PyEntry))
deriving DecidableEq, Repr

/-- Shorthand for an embedded Python int. -/
def PyVal.vInt (n : Int) : PyVal := .prim (.pInt n)

/-- Shorthand for an embedded Python string. -/
def PyVal.vStr (s : String) : PyVal := .prim (.pStr s)

/-- Shorthand for an embedded Python None. -/
def PyVal.vNone : PyVal := .prim .pNone

/-- Python truthiness of an embedded scalar. -/
def primTruthy : PyPrim → Bool
  | .pNone => false
  | .pBool b => b
  | .pInt n => n != 0
  | .pStr s => s != ""

/-- Python truthiness of an embedded value. -/
def pyTruthy : PyVal → Bool
  | .prim p => primTruthy p
  | .vList l => !l.isEmpty
  | .vDict l => !l.isEmpty

/-- Embeds Python `isinstance(x, dict)`. -/
def pyIsDict : PyVal → Bool
  | .vDict _ => true
  | _ => false

/-- Embeds Python `isinstance(x, int)`; note that Python booleans are
instances of int. -/
def pyIsInt : PyVal → Bool
  | .prim (.pInt _) => true
  | .prim (.pBool _) => true
  | _ => false

/-- Integer value of an embedded Python int or bool. -/
def pyToInt : PyVal → Int
  | .prim (.pInt n) => n
  | .prim (.pBool b) => if b then 1 else 0
  | _ => 0

/-- Lookup in an embedded Python mapping (keys are unique in a dict, so
the first binding wins). -/
def dictGet (l : List (String × PyEntry)) (k : String) : Option PyEntry :=
  (l.find? (fun kv => kv.1 = k)).map (·.2)

/-- Embeds Python `key in dict`. -/
def dictHasKey (l : List (String × PyEntry)) (k : String) : Bool :=
  (dictGet l k).isSome

/-- Decidable equality of Except results, so that concrete compilation
outcomes can be settled by decide. -/
instance exceptDecEq {ε α : Type} [DecidableEq ε] [DecidableEq α] :
    DecidableEq (Except ε α) := fun x y =>
  match x, y with
  | .ok a, .ok b =>
    if h : a = b then .isTrue (by rw [h]) else .isFalse (by intro hc; cases hc; exact h rfl)
  | .error a, .error b =>
    if h : a = b then .isTrue (by rw [h]) else .isFalse (by intro hc; cases hc; exact h rfl)
  | .ok _, .error _ => .isFalse (by intro hc; cases hc)
  | .error _, .ok _ => .isFalse (by intro hc; cases hc)

/-- A column of the introspected table, as reported by
get_table_schema_dynamic (name, normalized type label, nullability,
primary-key membership). -/
structure ColumnInfo where
  name : String
  type : String
  nullable : Bool
  primary_key : Bool
deriving DecidableEq, Repr

/-- The schema dictionary built by get_table_schema_dynamic. -/
structure SchemaInfo where
  table_name : String
  columns : List ColumnInfo
deriving DecidableEq, Repr

/-- Embeds DynamicQueryProcessor.get_column: the column is returned only
when its name is among the table columns, None otherwise. The table
object is represented by its list of column names. -/
def get_column (cols : List String) (name : String) : Option String :=
  if name ∈ cols then some name else none

/-- A compiled filter condition, the shallow embedding of the SQLAlchemy
filter expressions built by apply_filters and its two helpers. -/
inductive Cond where
  | ceq (col : String) (v : PyVal)
  | cgt (col : String) (v : PyEntry)
  | cgte (col : String) (v : PyEntry)
  | clt (col : String) (v : PyEntry)
  | clte (col : String) (v : PyEntry)
  | cbetween (col : String) (lo hi : PyPrim)
  | cmonthEq (col : String) (v : PyEntry)
  | cyearEq (col : String) (v : PyEntry)
deriving DecidableEq, Repr

/-- Comparison of scalar SQL values: integers numerically, strings
lexicographically (ISO date strings compare correctly this way). Used
only to give the compiled conditions a semantics. -/
def primLt : PyPrim → PyPrim → Bool
  | .pInt a, .pInt b => a < b
  | .pStr a, .pStr b => charsLt a.toList b.toList
  | _, _ => false

/-- Non-strict scalar comparison, matching primLt. -/
def primLe (a b : PyPrim) : Bool :=
  a = b || primLt a b

/-- Splits a char list on dash characters. -/
def splitDashes : List Char → List (List Char)
  | [] => [[]]
  | c :: rest =>
    let r := splitDashes rest
    if c = '-' then [] :: r
    else
      match r with
      | h :: t => (c :: h) :: t
      | [] => [[c]]

/-- Parses a nonempty all-digit char list as a natural number. -/
def parseNatChars (l : List Char) : Option Nat :=
  if l.isEmpty || !(l.all Char.isDigit) then none
  else some (l.foldl (fun acc c => acc * 10 + (c.toNat - 48)) 0)

/-- Month of an ISO `YYYY-MM-DD` date string, used to give the month and
year extraction conditions a semantics. -/
def isoMonth (s : String) : Option Int :=
  match (splitDashes s.toList).map parseNatChars with
  | [some _, some m, some _] => some (Int.ofNat m)
  | _ => none

/-- Year of an ISO `YYYY-MM-DD` date string. -/
def isoYear (s : String) : Option Int :=
  match (splitDashes s.toList).map parseNatChars with
  | [some y, some _, some _] => some (Int.ofNat y)
  | _ => none

/-- Semantics of a compiled condition on a row (a map from column name to
scalar value): equality, strict and non-strict comparisons, the inclusive
between range, and month/year extraction on ISO date strings. -/
def evalCond (row : String → PyPrim) : Cond → Bool
  | .ceq c v => v = .prim (row c)
  | .cgt c v => match v with | .prim p => primLt p (row c) | _ => false
  | .cgte c v => match v with | .prim p => primLe p (row c) | _ => false
  | .clt c v => match v with | .prim p => primLt (row c) p | _ => false
  | .clte c v => match v with | .prim p => primLe (row c) p | _ => false
  | .cbetween c lo hi => primLe lo (row c) && primLe (row c) hi
  | .cmonthEq c v =>
    match row c, v with
    | .pStr s, .prim (.pInt m) => isoMonth s = some m
    | _, _ => false
  | .cyearEq c v =>
    match row c, v with
    | .pStr s, .prim (.pInt y) => isoYear s = some y
    | _, _ => false

/-- Embeds DynamicQueryProcessor._apply_date_filter: a `month` key wins
over `between`, which wins over `year`; the between bound is unpacked
into exactly two scalars (any other shape raises, embedded as an error).
A mapping with none of the three keys adds no condition. -/
def apply_date_filter (column : String) (d : List (String × PyEntry)) :
    Except String (List Cond) :=
  match dictGet d "month" with
  | some m => .ok [.cmonthEq column m]
  | none =>
    match dictGet d "between" with
    | some (.vList [a, b]) => .ok [.cbetween column a b]
    | some _ => .error "cannot unpack between bound"
    | none =>
      match dictGet d "year" with
      | some y => .ok [.cyearEq column y]
      | none => .ok []

/-- A dict entry value seen as a plain value. -/
def entryToVal : PyEntry → PyVal
  | .prim p => .prim p
  | .vList l => .vList l

/-- One operator of _apply_numerical_filter: a recognized operator key
produces its comparison (between unpacks a two-element bound, any other
shape raises); an unrecognized key is skipped. -/
def apply_num_op (column : String) (op : String) (v : PyEntry) :
    Except String (List Cond) :=
  if op = "gt" then .ok [.cgt column v]
  else if op = "gte" then .ok [.cgte column v]
  else if op = "lt" then .ok [.clt column v]
  else if op = "lte" then .ok [.clte column v]
  else if op = "eq" then .ok [.ceq column (entryToVal v)]
  else if op = "between" then
    match v with
    | .vList [a, b] => .ok [.cbetween column a b]
    | _ => .error "cannot unpack between bound"
  else .ok []

/-- Embeds DynamicQueryProcessor._apply_numerical_filter: every entry of
the operator mapping is processed in order. -/
def apply_numerical_filter (column : String) (d : List (String × PyEntry)) :
    Except String (List Cond) :=
  match d with
  | [] => .ok []
  | (op, v) :: rest => do
    let c ← apply_num_op column op v
    let cs ← apply_numerical_filter column rest
    .ok (c ++ cs)

/-- Embeds one iteration of the loop in
DynamicQueryProcessor.apply_filters: an unknown column is skipped; a
mapping under a key ending in `date` goes to the date filter; any other
mapping goes to the numerical filter; a truthy non-mapping value becomes
an equality condition; a falsy non-mapping value is skipped. -/
def apply_filter_entry (cols : List String) (key : String) (value : PyVal) :
    Except String (List Cond) :=
  match get_column cols key with
  | none => .ok []
  | some column =>
    match value with
    | .vDict d =>
      if strEndsWith (strLower key) "date" then apply_date_filter column d
      else apply_numerical_filter column d
    | v => if pyTruthy v then .ok [.ceq column v] else .ok []

/-- Embeds DynamicQueryProcessor.apply_filters: the filter entries are
compiled in order, and an exception anywhere aborts the whole
compilation. -/
def apply_filters (cols : List String) : List (String × PyVal) →
    Except String (List Cond)
  | [] => .ok []
  | (k, v) :: rest => do
    let c ← apply_filter_entry cols k v
    let cs ← apply_filters cols rest
    .ok (c ++ cs)

/-- The sort dictionary of the intent. The column may be absent or falsy;
the order string may be absent (apply_sorting defaults it to asc, the
grouped paths compare it to the literal desc). An absent or empty sort
dictionary is represented by Option.none at the use sites. -/
structure SortConfig where
  column : Option String
  order : Option String
deriving DecidableEq, Repr

/-- A plain tabular query: the accumulated filter conditions, an optional
order-by on a raw column (with a descending flag), and an optional limit
value as passed to the limit call. -/
structure TabQuery where
  conds : List Cond
  orderBy : Option (String × Bool)
  limit : Option PyVal
deriving DecidableEq, Repr

/-- Embeds DynamicQueryProcessor.apply_sorting in its non-aggregated use
(process_business_query_dynamic, plain tabular path): a missing or falsy
sort column does nothing; an unknown column returns with the query
unchanged; a known column orders by that column, descending exactly when
the order string lower-cases to desc (defaulting to asc). -/
def apply_sorting (cols : List String) (q : TabQuery) : Option SortConfig → TabQuery
  | none => q
  | some cfg =>
    match cfg.column with
    | none => q
    | some s =>
      if s = "" then q
      else
        match get_column cols s with
        | none => q
        | some c => { q with orderBy := some (c, strLower (cfg.order.getD "asc") = "desc") }

/-- Embeds DynamicQueryProcessor.apply_limit: the limit is attached only
when the value is truthy, an int instance, and positive. -/
def apply_limit (q : TabQuery) (limit_config : PyVal) : TabQuery :=
  if pyTruthy limit_config && pyIsInt limit_config && pyToInt limit_config > 0 then
    { q with limit := some limit_config }
  else q

/-- The five SQL aggregate operators of get_aggregation_function. -/
inductive AggFunc where
  | fsum
  | fcount
  | favg
  | fmax
  | fmin
deriving DecidableEq, Repr

/-- A compiled value expression: a raw column, a product of two
expressions, or an aggregate over an expression. -/
inductive Expr where
  | col (name : String)
  | mul (a b : Expr)
  | agg (f : AggFunc) (e : Expr)
deriving DecidableEq, Repr

/-- Embeds get_aggregation_function: the lower-cased name selects among
sum, count, avg, max and min, and anything else falls back to sum. -/
def get_aggregation_function (agg_type : String) (column : Expr) : Expr :=
  let f :=
    if strLower agg_type = "sum" then AggFunc.fsum
    else if strLower agg_type = "count" then AggFunc.fcount
    else if strLower agg_type = "avg" then AggFunc.favg
    else if strLower agg_type = "max" then AggFunc.fmax
    else if strLower agg_type = "min" then AggFunc.fmin
    else AggFunc.fsum
  .agg f column

/-- A word character in the sense of the regex class `\w`. -/
def isWordChar (c : Char) : Bool :=
  c.isAlphanum || c = '_'

/-- Embeds the regex match `(\w+)\((\w+)\)` applied with re.match: a
nonempty maximal word prefix, an opening parenthesis, a nonempty maximal
word run, a closing parenthesis; trailing text is ignored because
re.match only anchors at the start. Returns the two captured groups. -/
def parseAggMatch (s : String) : Option (String × String) :=
  let cs := s.toList
  let w1 := cs.takeWhile isWordChar
  let rest1 := cs.dropWhile isWordChar
  if w1.isEmpty then none
  else
    match rest1 with
    | '(' :: rest2 =>
      let w2 := rest2.takeWhile isWordChar
      let rest3 := rest2.dropWhile isWordChar
      if w2.isEmpty then none
      else
        match rest3 with
        | ')' :: _ => some (String.mk w1, String.mk w2)
        | _ => none
    | _ => none

/-- The quantity-like column name patterns of detect_revenue_columns, in
declared priority order. -/
def quantity_patterns : List String :=
  ["quantity", "qty", "amount", "count", "units"]

/-- The price-like column name patterns of detect_revenue_columns, in
declared priority order. -/
def price_patterns : List String :=
  ["price", "cost", "rate", "unitprice", "unit_price"]

/-- The nested search loop of detect_revenue_columns: for each pattern in
priority order, scan the columns and keep the first column whose
lower-cased name contains the pattern; both loops break on the first
success. -/
def find_pattern_column (patterns : List String) (columns : List ColumnInfo) :
    Option String :=
  patterns.findSome? fun pattern =>
    (columns.find? fun col => strContains (strLower col.name) pattern).map (·.name)

/-- Embeds detect_revenue_columns: a missing schema yields no columns;
otherwise the first quantity-like and first price-like matches are
returned independently. -/
def detect_revenue_columns : Option SchemaInfo → Option String × Option String
  | none => (none, none)
  | some schema_info =>
    (find_pattern_column quantity_patterns schema_info.columns,
     find_pattern_column price_patterns schema_info.columns)

/-- A compiled grouped aggregation query: the grouping column, the
aggregate value expression, an optional order-by on an aggregate
expression, and an optional limit value. -/
structure GroupedQuery where
  label : String
  value : Expr
  orderBy : Option (Expr × Bool)
  limit : Option PyVal
deriving DecidableEq, Repr

/-- Result of the revenue execution path: an error row, a grouped query,
or a single scalar total expression. -/
inductive RevenueResult where
  | rerr (msg : String)
  | grouped (q : GroupedQuery)
  | total (e : Expr)
deriving DecidableEq, Repr

/-- Embeds the query-construction part of
DynamicQueryProcessor._execute_grouped_revenue_query: the grouping column
must exist; the value is SUM of quantity times price; a truthy sort
dictionary orders by the revenue expression, descending exactly when its
order value equals desc; a truthy limit value of any shape is attached. -/
def execute_grouped_revenue_compile (table_name : String) (cols : List String)
    (qc pc : String) (group_by : List String) (sort_config : Option SortConfig)
    (limit_config : PyVal) : RevenueResult :=
  match group_by with
  | [] => .rerr "IndexError"
  | g :: _ =>
    match get_column cols g with
    | none => .rerr ("Column " ++ g ++ " not found in table " ++ table_name)
    | some label =>
      let revenue_expr : Expr := .agg .fsum (.mul (.col qc) (.col pc))
      let ob : Option (Expr × Bool) :=
        match sort_config with
        | some cfg => some (revenue_expr, cfg.order = some "desc")
        | none => none
      let lim : Option PyVal := if pyTruthy limit_config then some limit_config else none
      .grouped { label := label, value := revenue_expr, orderBy := ob, limit := lim }

/-- Embeds DynamicQueryProcessor.execute_revenue_query: both detected
revenue columns are required, then a truthy group_by selects the grouped
query and otherwise the scalar total is computed. -/
def execute_revenue_query_compile (table_name : String) (cols : List String)
    (qty price : Option String) (group_by : List String)
    (sort_config : Option SortConfig) (limit_config : PyVal) : RevenueResult :=
  match qty, price with
  | some qc, some pc =>
    if group_by.isEmpty then .total (.agg .fsum (.mul (.col qc) (.col pc)))
    else execute_grouped_revenue_compile table_name cols qc pc group_by sort_config limit_config
  | _, _ =>
    .rerr ("Revenue calculation not possible - missing quantity or price columns in table "
      ++ table_name)

/-- The projection-resolution chain of
DynamicQueryProcessor.execute_aggregated_query: parse the projection
value as FUNC(column); a parsed aggregate over a known column maps
through get_aggregation_function; otherwise fall back to SUM over the
column named like the projection key; otherwise a column-not-found
error. -/
def aggregated_projection_expr (table_name : String) (cols : List String)
    (proj_key proj_value : String) : Except String Expr :=
  match parseAggMatch proj_value with
  | some (agg_func, agg_column) =>
    match get_column cols agg_column with
    | some c => .ok (get_aggregation_function agg_func (.col c))
    | none =>
      match get_column cols proj_key with
      | some pc => .ok (.agg .fsum (.col pc))
      | none =>
        .error ("Column " ++ agg_column ++ " or " ++ proj_key ++ " not found in table "
          ++ table_name)
  | none =>
    match get_column cols proj_key with
    | some pc => .ok (.agg .fsum (.col pc))
    | none => .error ("Column " ++ proj_key ++ " not found in table " ++ table_name)

/-- Embeds the query-construction part of
DynamicQueryProcessor.execute_aggregated_query: the grouping column and
the first projection drive the aggregate expression; a truthy sort
dictionary orders by the aggregate expression; a truthy limit value of
any shape is attached. -/
def execute_aggregated_compile (table_name : String) (cols : List String)
    (group_by : List String) (projections : List (String × String))
    (sort_config : Option SortConfig) (limit_config : PyVal) :
    Except String GroupedQuery :=
  match group_by with
  | [] => .error "IndexError"
  | g :: _ =>
    match get_column cols g with
    | none => .error ("Column " ++ g ++ " not found in table " ++ table_name)
    | some label =>
      match projections with
      | [] => .error "IndexError"
      | (pk, pv) :: _ =>
        match aggregated_projection_expr table_name cols pk pv with
        | .error e => .error e
        | .ok e =>
          .ok { label := label, value := e,
                orderBy :=
                  match sort_config with
                  | some cfg => some (e, cfg.order = some "desc")
                  | none => none,
                limit := if pyTruthy limit_config then some limit_config else none }

/-- The revenue-vs-generic decision of the tabular execution path, the
branch condition at the revenue dispatch of
process_business_query_dynamic: derived_metrics is truthy, or some
projection value textually mentions revenue or quantity times price. -/
def revenue_decision_tabular (derived_metrics : List (String × String))
    (projections : List (String × String)) : Bool :=
  !derived_metrics.isEmpty ||
    projections.any fun kv =>
      strContains (strLower kv.2) "revenue" || strContains (strLower kv.2) "quantity * price"

/-- The revenue-vs-generic decision of
DynamicQueryProcessor.get_chart_data: the first projection key mentions
revenue or its value mentions quantity times price, and both revenue
columns were detected. -/
def revenue_decision_chart (qty price : Option String)
    (proj_key proj_value : String) : Bool :=
  (strContains (strLower proj_key) "revenue" || strContains (strLower proj_value) "quantity * price")
    && qty.isSome && price.isSome

/-- The generic-aggregation projection resolution inside
DynamicQueryProcessor.get_chart_data, which duplicates the chain of
execute_aggregated_query but returns no rows instead of an error row. -/
def chart_projection_expr (cols : List String) (proj_key proj_value : String) :
    Option Expr :=
  match parseAggMatch proj_value with
  | some (agg_func, agg_column) =>
    match get_column cols agg_column with
    | some c => some (get_aggregation_function agg_func (.col c))
    | none =>
      match get_column cols proj_key with
      | some pc => some (.agg .fsum (.col pc))
      | none => none
  | none =>
    match get_column cols proj_key with
    | some pc => some (.agg .fsum (.col pc))
    | none => none

/-- Embeds the query-construction part of
DynamicQueryProcessor.get_chart_data: the grouping column and first
projection produce the label column and the value expression, taking the
revenue expression when the chart revenue decision fires and the generic
resolution otherwise; every failure mode produces no pairs. -/
def get_chart_data_compile (cols : List String) (qty price : Option String)
    (group_by : List String) (projections : List (String × String)) :
    Option (String × Expr) :=
  match group_by with
  | [] => none
  | g :: _ =>
    match get_column cols g with
    | none => none
    | some label =>
      match projections with
      | [] => none
      | (pk, pv) :: _ =>
        if revenue_decision_chart qty price pk pv then
          match qty, price with
          | some qc, some pc => some (label, .agg .fsum (.mul (.col qc) (.col pc)))
          | _, _ => none
        else
          (chart_projection_expr cols pk pv).map fun e => (label, e)

/-- The aggregate value expression the tabular execution path of
process_business_query_dynamic computes for a grouped intent: the
tabular revenue decision selects between the revenue query and the
generic aggregated query; failures yield no expression. -/
def tabular_grouped_value_expr (table_name : String) (cols : List String)
    (qty price : Option String) (derived_metrics : List (String × String))
    (group_by : List String) (projections : List (String × String))
    (sort_config : Option SortConfig) (limit_config : PyVal) : Option Expr :=
  if revenue_decision_tabular derived_metrics projections then
    match execute_revenue_query_compile table_name cols qty price group_by sort_config limit_config with
    | .grouped q => some q.value
    | _ => none
  else
    match execute_aggregated_compile table_name cols group_by projections sort_config limit_config with
    | .ok q => some q.value
    | .error _ => none

/-- The aggregate value expression get_chart_data computes for the same
intent. -/
def chart_grouped_value_expr (cols : List String) (qty price : Option String)
    (group_by : List String) (projections : List (String × String)) : Option Expr :=
  (get_chart_data_compile cols qty price group_by projections).map (·.2)

/-- The BUSINESS_KEYWORDS list of the source module. -/
def BUSINESS_KEYWORDS : List String :=
  ["revenue", "profit", "sales", "orders", "quantity", "price", "total", "sum", "count",
   "average", "top", "best", "most", "highest", "lowest", "show", "get", "find",
   "product", "category", "region", "customer", "month", "quarter", "year",
   "performance", "analysis", "report", "chart", "graph"]

/-- The CHART_KEYWORDS list of the source module. -/
def CHART_KEYWORDS : List String :=
  ["chart", "graph", "plot", "visualize", "show me"]

/-- The chart-kind list tested inside is_conversational. -/
def conversational_chart_types : List String :=
  ["pie", "bar", "line", "donut", "column", "area", "stacked_area", "percentage_area"]

/-- Embeds parse_chart_type: the lower-cased, trimmed query is scanned
against the chart-kind keywords in the declared order of specificity. -/
def parse_chart_type (query : String) : Option String :=
  let q := strTrim (strLower query)
  if strContains q "donut" then some "donut"
  else if strContains q "pie" then some "pie"
  else if strContains q "column" then some "column"
  else if strContains q "bar" then some "bar"
  else if strContains q "line" then some "line"
  else if strContains q "stacked area" || strContains q "stacked_area" then some "stacked_area"
  else if strContains q "percentage area" || strContains q "percentage_area" then some "percentage_area"
  else if strContains q "area" then some "area"
  else none

/-- Embeds is_conversational. The outcome of the external completion call
used as a classification fallback is passed in as llm_classify (None for
a failed request): blank text is conversational, an exact chart-kind
name or a business keyword makes it a data request, and otherwise the
completion answer decides, defaulting to a data request on failure. -/
def is_conversational (query : String) (llm_classify : Option String) : Bool :=
  if strTrim query = "" then true
  else
    let query_lower := strLower query
    if strTrim query_lower ∈ conversational_chart_types then false
    else if BUSINESS_KEYWORDS.any (fun k => strContains query_lower k) then false
    else
      match llm_classify with
      | some result => strLower result = "casual"
      | none => false

/-- Embeds detect_chart_request: any chart keyword occurring in the
lower-cased query. -/
def detect_chart_request (query : String) : Bool :=
  CHART_KEYWORDS.any fun k => strContains (strLower query) k

/-- The caller-supplied connection parameters. The db_type field holds
the value after the source applies its mysql default. -/
structure DatabaseConfig where
  db_type : String
  host : String
  port : Nat
  username : String
  password : String
  database : String
deriving DecidableEq, Repr

/-- The backend kinds accepted by create_dynamic_engine. -/
def supported_db_type (cfg : DatabaseConfig) : Bool :=
  strLower cfg.db_type ∈ ["mysql", "postgresql", "sqlite", "sql server"]

/-- The structured intent extracted from the language-model completion by
parse_business_query, with the fields handle_query_orm reads from it. -/
structure Intent where
  filters : List (String × PyVal)
  group_by : List String
  projections : List (String × String)
  sort : Option SortConfig
  limit : PyVal
  chart_type : Option String
  derived_metrics : List (String × String)
deriving DecidableEq, Repr

/-- The pending chart context parked in the session by handle_query_orm,
with exactly the keys the source stores. -/
structure ChartContext where
  database_config : DatabaseConfig
  table_name : String
  filters : List (String × PyVal)
  group_by : List String
  projections : List (String × String)
  sort_config : Option SortConfig
  limit_config : PyVal
  derived_metrics : List (String × String)
deriving DecidableEq, Repr

/-- The context dictionary built at the chart-type selection workflow of
handle_query_orm. -/
def mkChartContext (cfg : DatabaseConfig) (table_name : String) (intent : Intent) :
    ChartContext :=
  { database_config := cfg, table_name := table_name, filters := intent.filters,
    group_by := intent.group_by, projections := intent.projections,
    sort_config := intent.sort, limit_config := intent.limit,
    derived_metrics := intent.derived_metrics }

/-- Abstract outcome of executing the compiled query against the data
source (the part of process_business_query_dynamic beyond query
construction, whose data results are external to the claims). -/
inductive ExecOutcome where
  | success
  | failure (msg : String)
deriving DecidableEq, Repr

/-- The response shapes of the route, coarsened to what the claims
distinguish: an error with a status, a conversational message, the
awaiting-chart-type prompt with its options list, and a processed query
response carrying the chart type used and the execution outcome. -/
inductive Resp where
  | errResp (msg : String) (status : Nat)
  | msgResp (msg : String)
  | awaitingChart (msg : String) (options : List String)
  | processed (chart_type : String) (outcome : ExecOutcome)
deriving DecidableEq, Repr

/-- Whether a response re-prompts for a chart type. -/
def Resp.isAwaiting : Resp → Bool
  | .awaitingChart _ _ => true
  | _ => false

/-- Session read of the pending chart context. -/
def get_pending_chart_context (st : Option ChartContext) : Option ChartContext := st

/-- Session write of the pending chart context. -/
def set_pending_chart_context (context : ChartContext) (_st : Option ChartContext) :
    Option ChartContext := some context

/-- Session removal of the pending chart context. -/
def clear_pending_chart_context (_st : Option ChartContext) : Option ChartContext := none

/-- Resource events on the data-source boundary: engine creation and
disposal, session opening and closing. -/
inductive REvent where
  | engineOpen
  | engineDispose
  | sessionOpen
  | sessionClose
deriving DecidableEq, Repr

/-- Embeds create_dynamic_engine as a resource trace: an unsupported
backend kind raises before any engine exists; otherwise the engine is
created and the connection test decides success. A failed connection
test raises with the just-created engine abandoned undisposed. -/
def create_dynamic_engine_trace (cfg : DatabaseConfig) (connect_ok : Bool) :
    List REvent × Bool :=
  if !supported_db_type cfg then ([], false)
  else ([.engineOpen], connect_ok)

/-- The eight options offered by the original disambiguation prompt of
handle_query_orm. -/
def await_options : List String :=
  ["pie", "donut", "bar", "column", "line", "area", "stacked_area", "percentage_area"]

/-- The three options offered by the re-prompt of
handle_chart_type_response. -/
def reprompt_options : List String :=
  ["pie", "bar", "line"]

/-- Embeds process_business_query_dynamic at the session and resource
level: it opens its own engine and session, never reads or writes the
session-stored pending chart context, and its try/finally closes the
session and disposes the engine on every path once the engine exists.
The data outcome is abstracted by the outcome argument; chart_type is
the chart kind it was invoked with. -/
def process_business_query_dynamic_sm (cfg : DatabaseConfig) (connect_ok : Bool)
    (chart_type : String) (outcome : ExecOutcome) (st : Option ChartContext) :
    Resp × Option ChartContext × List REvent :=
  if !(create_dynamic_engine_trace cfg connect_ok).2 then
    (.errResp "Database connection or query failed" 500, st,
     (create_dynamic_engine_trace cfg connect_ok).1)
  else
    (.processed chart_type outcome, st,
     (create_dynamic_engine_trace cfg connect_ok).1
       ++ [.sessionOpen, .sessionClose, .engineDispose])

/-- Embeds handle_chart_type_response: an unparseable chart-kind answer
re-prompts with the fixed three options and leaves the session alone; a
parsed kind clears the pending context first and then replays the parked
context into process_business_query_dynamic. -/
def handle_chart_type_response (question : String) (context : ChartContext)
    (connect_ok : Bool) (outcome : ExecOutcome) (st : Option ChartContext) :
    Resp × Option ChartContext × List REvent :=
  match parse_chart_type question with
  | none =>
    (.awaitingChart "Please specify a valid chart type: pie, bar, or line" reprompt_options,
     st, [])
  | some chart_type =>
    let st1 := clear_pending_chart_context st
    process_business_query_dynamic_sm context.database_config connect_ok chart_type outcome st1

/-- The external-world outcomes one request can observe: connection
test, table existence, schema retrieval, the two completion calls, the
parsed intent, and the data-source execution outcome. -/
structure Oracle where
  connect_ok : Bool
  table_exists : Bool
  schema_found : Bool
  llm_classify : Option String
  llm_reply : Option String
  parsed : Option Intent
  exec_outcome : ExecOutcome
deriving DecidableEq, Repr

/-- Embeds handle_query_orm: the question check, the connection test
block (whose engine is disposed only after a successful table lookup),
the schema retrieval with its own engine, the pending-chart-context gate
that short-circuits everything else, the conversational branch, intent
parsing, the chart-type selection workflow that parks a context, and
the final dispatch to process_business_query_dynamic. Returns the
response, the session state after the request, and the resource trace. -/
def handle_query_orm (question : String) (cfg : DatabaseConfig) (table_name : String)
    (o : Oracle) (st : Option ChartContext) :
    Resp × Option ChartContext × List REvent :=
  if strTrim question = "" then (.errResp "Please provide a valid question" 400, st, [])
  else
    let t1 := create_dynamic_engine_trace cfg o.connect_ok
    if !t1.2 then (.errResp "Database connection failed" 400, st, t1.1)
    else if !o.table_exists then (.errResp "Database connection failed" 400, st, t1.1)
    else
      let t3 := create_dynamic_engine_trace cfg o.connect_ok
      let ev4 := (t1.1 ++ [.engineDispose]) ++ t3.1 ++ [.engineDispose]
      if !o.schema_found then
        (.errResp "Could not retrieve schema for table or table does not exist" 400, st, ev4)
      else
        match get_pending_chart_context st with
        | some context =>
          let r := handle_chart_type_response question context o.connect_ok
            o.exec_outcome st
          (r.1, r.2.1, ev4 ++ r.2.2)
        | none =>
          if is_conversational question o.llm_classify then
            match o.llm_reply with
            | some reply => (.msgResp reply, st, ev4)
            | none => (.errResp "No response from model" 500, st, ev4)
          else
            match o.parsed with
            | none => (.errResp "Model returned invalid format." 500, st, ev4)
            | some intent =>
              let specified := parse_chart_type question
              let ct0 :=
                match intent.chart_type with
                | some s => if s != "" then s else specified.getD ""
                | none => specified.getD ""
              let chart_type := strLower ct0
              if detect_chart_request question && chart_type = ""
                  && !intent.group_by.isEmpty && !intent.projections.isEmpty then
                (.awaitingChart "What type of chart would you like to see?" await_options,
                 set_pending_chart_context (mkChartContext cfg table_name intent) st, ev4)
              else
                let r := process_business_query_dynamic_sm cfg o.connect_ok
                  chart_type o.exec_outcome st
                (r.1, r.2.1, ev4 ++ r.2.2)

/-- Whether a resource trace releases every engine and session it
opened. -/
def trace_balanced (tr : List REvent) : Bool :=
  tr.count .engineOpen = tr.count .engineDispose
    && tr.count .sessionOpen = tr.count .sessionClose

/-- The eight chart kinds known to generate_chart_with_type. -/
inductive ChartKind where
  | pie
  | donut
  | bar
  | column
  | line
  | area
  | stacked_area
  | percentage_area
deriving DecidableEq, Repr

/-- The key list of the chart_generators dictionary. -/
def known_chart_kind_names : List String :=
  ["pie", "donut", "bar", "column", "line", "area", "stacked_area", "percentage_area"]

/-- The chart_generators dictionary lookup of generate_chart_with_type. -/
def chart_generator_lookup (s : String) : Option ChartKind :=
  if s = "pie" then some .pie
  else if s = "donut" then some .donut
  else if s = "bar" then some .bar
  else if s = "column" then some .column
  else if s = "line" then some .line
  else if s = "area" then some .area
  else if s = "stacked_area" then some .stacked_area
  else if s = "percentage_area" then some .percentage_area
  else none

/-- Embeds generate_chart_with_type over an abstract family of chart
renderers (chart rendering is an external collaborator: each renderer
either returns an encoded image or raises, embedded as Except). The
lower-cased type selects a generator, any unknown type falls back to the
bar generator, and the surrounding try/except turns any raise into an
absent result. -/
def generate_chart_with_type
    (gens : ChartKind → List (PyPrim × PyPrim) → Except String String)
    (chart_type : String) (chart_data : List (PyPrim × PyPrim)) : Option String :=
  match chart_generator_lookup (strLower chart_type) with
  | some k => (gens k chart_data).toOption
  | none => (gens .bar chart_data).toOption

/-- Specification-side restatement of revenue-column detection, written
from the spec wording: take the first pattern in declared priority order
for which some column name matches under case-insensitive substring
matching, then the first column matching that pattern; absent when no
pattern matches any column. -/
def spec_first_match (patterns : List String) (columns : List ColumnInfo) :
    Option String :=
  match patterns.find? (fun p => columns.any fun c => strContains (strLower c.name) p) with
  | some p => (columns.find? (fun c => strContains (strLower c.name) p)).map (·.name)
  | none => none

/-- A schema with columns id, qty, unit_price, the first worked example
of the detection property. -/
def schema_qty_unit_price : SchemaInfo :=
  { table_name := "orders",
    columns :=
      [{ name := "id", type := "INTEGER", nullable := false, primary_key := true },
       { name := "qty", type := "INTEGER", nullable := true, primary_key := false },
       { name := "unit_price", type := "FLOAT", nullable := true, primary_key := false }] }

/-- A schema with columns id, name, the second worked example of the
detection property. -/
def schema_id_name : SchemaInfo :=
  { table_name := "customers",
    columns :=
      [{ name := "id", type := "INTEGER", nullable := false, primary_key := true },
       { name := "name", type := "TEXT", nullable := true, primary_key := false }] }

/-- The nested source loop and the spec description agree pattern by
pattern. -/
theorem find_pattern_column_eq_spec (patterns : List String) (columns : List ColumnInfo) :
    find_pattern_column patterns columns = spec_first_match patterns columns := by
  induction patterns with
  | nil => rfl
  | cons p ps ih =>
    by_cases hfind : (columns.find? fun c => strContains (strLower c.name) p).isSome
    · obtain ⟨c, hc⟩ := Option.isSome_iff_exists.mp hfind
      have hmem : c ∈ columns := List.mem_of_find?_eq_some hc
      have hpc := List.find?_some hc
      have hany : (columns.any fun c => strContains (strLower c.name) p) = true :=
        List.any_eq_true.mpr ⟨c, hmem, hpc⟩
      simp [find_pattern_column, spec_first_match, List.findSome?_cons, hc,
        List.find?_cons_of_pos, hany]
    · have hnone : (columns.find? fun c => strContains (strLower c.name) p) = none :=
        Option.not_isSome_iff_eq_none.mp hfind
      have hany : (columns.any fun c => strContains (strLower c.name) p) = false := by
        rw [Bool.eq_false_iff]
        intro hcontra
        obtain ⟨c, hmem, hp⟩ := List.any_eq_true.mp hcontra
        have := List.find?_eq_none.mp hnone c hmem
        exact this hp
      have := ih
      simp [find_pattern_column, spec_first_match, List.findSome?_cons, hnone, hany] at this ⊢
      exact this

/-- C9: detect_revenue_columns returns, for each fixed pattern list, the
first matching column under case-insensitive substring matching in
declared pattern-priority order, and absent for a list with no match;
in particular the schema with columns id, qty, unit_price yields qty and
unit_price, and the schema with columns id, name yields neither. -/
theorem detect_revenue_columns_first_match :
    (∀ si : SchemaInfo,
      detect_revenue_columns (some si)
        = (spec_first_match quantity_patterns si.columns,
           spec_first_match price_patterns si.columns))
    ∧ detect_revenue_columns (some schema_qty_unit_price) = (some "qty", some "unit_price")
    ∧ detect_revenue_columns (some schema_id_name) = (none, none) := by
  refine ⟨fun si => ?_, by decide, by decide⟩
  simp [detect_revenue_columns, find_pattern_column_eq_spec]

/-- C10: for a chart-type string that lower-cases to none of the eight
known kinds, generate_chart_with_type silently uses the bar generator,
and its result is absent exactly when that generator raises. -/
theorem unknown_chart_type_falls_back_to_bar
    (gens : ChartKind → List (PyPrim × PyPrim) → Except String String)
    (chart_type : String) (chart_data : List (PyPrim × PyPrim))
    (h : strLower chart_type ∉ known_chart_kind_names) :
    generate_chart_with_type gens chart_type chart_data = (gens .bar chart_data).toOption
    ∧ (generate_chart_with_type gens chart_type chart_data = none
        ↔ ∃ e, gens .bar chart_data = .error e) := by
  simp only [known_chart_kind_names, List.mem_cons, List.not_mem_nil, or_false, not_or] at h
  obtain ⟨h1, h2, h3, h4, h5, h6, h7, h8⟩ := h
  have hl : chart_generator_lookup (strLower chart_type) = none := by
    simp [chart_generator_lookup, h1, h2, h3, h4, h5, h6, h7, h8]
  refine ⟨by simp [generate_chart_with_type, hl], ?_⟩
  simp only [generate_chart_with_type, hl]
  cases hgen : gens .bar chart_data with
  | ok img => simp [Except.toOption]
  | error e => simp [Except.toOption]

/-- A demonstration renderer family that always succeeds. -/
def demo_gens : ChartKind → List (PyPrim × PyPrim) → Except String String :=
  fun _ _ => .ok "png"

/-- Witness for the chart fallback theorem at the concrete unknown type
scatter. -/
theorem unknown_chart_type_falls_back_to_bar_witness :
    generate_chart_with_type demo_gens "scatter" [] = (demo_gens .bar []).toOption
    ∧ (generate_chart_with_type demo_gens "scatter" [] = none
        ↔ ∃ e, demo_gens .bar [] = .error e) :=
  unknown_chart_type_falls_back_to_bar demo_gens "scatter" [] (by decide)

/-- C6 counterexample: the filter entry qty ↦ 0 names a known column and
carries a plain scalar value, yet it compiles to no condition at all
instead of an equality condition (Python truthiness drops the zero). -/
theorem falsy_scalar_filter_dropped :
    apply_filter_entry ["qty"] "qty" (PyVal.vInt 0) = .ok []
    ∧ ∀ c v, ([] : List Cond) ≠ [Cond.ceq c v] :=
  ⟨by decide, fun _ _ h => List.noConfusion h⟩

/-- C6 as amended: for a filter entry whose column exists, a truthy plain
scalar compiles to equality (a falsy scalar is dropped); for a key not
ending in the date suffix, a gt/gte/lt/lte/eq mapping compiles to the
corresponding comparison and between to a two-bound range; for a key
ending in the date suffix, month, year and between mappings compile to
month-of-date equality, year-of-date equality and a date range. The
closing clauses anchor the semantics: gt is strict, between is inclusive
at both endpoints, and the date conditions extract month and year from
ISO dates. -/
theorem filter_value_shapes (cols : List String) (key : String) (h : key ∈ cols) :
    (∀ v : PyVal, pyIsDict v = false → pyTruthy v = true →
        apply_filter_entry cols key v = .ok [.ceq key v])
    ∧ (∀ v : PyVal, pyIsDict v = false → pyTruthy v = false →
        apply_filter_entry cols key v = .ok [])
    ∧ (strEndsWith (strLower key) "date" = false →
        (∀ v, apply_filter_entry cols key (.vDict [("gt", v)]) = .ok [.cgt key v])
        ∧ (∀ v, apply_filter_entry cols key (.vDict [("gte", v)]) = .ok [.cgte key v])
        ∧ (∀ v, apply_filter_entry cols key (.vDict [("lt", v)]) = .ok [.clt key v])
        ∧ (∀ v, apply_filter_entry cols key (.vDict [("lte", v)]) = .ok [.clte key v])
        ∧ (∀ v, apply_filter_entry cols key (.vDict [("eq", v)])
            = .ok [.ceq key (entryToVal v)])
        ∧ (∀ a b, apply_filter_entry cols key (.vDict [("between", .vList [a, b])])
            = .ok [.cbetween key a b]))
    ∧ (strEndsWith (strLower key) "date" = true →
        (∀ m, apply_filter_entry cols key (.vDict [("month", m)]) = .ok [.cmonthEq key m])
        ∧ (∀ y, apply_filter_entry cols key (.vDict [("year", y)]) = .ok [.cyearEq key y])
        ∧ (∀ a b, apply_filter_entry cols key (.vDict [("between", .vList [a, b])])
            = .ok [.cbetween key a b]))
    ∧ (evalCond (fun _ => .pInt 10) (.cgt key (.prim (.pInt 10))) = false)
    ∧ (evalCond (fun _ => .pInt 11) (.cgt key (.prim (.pInt 10))) = true)
    ∧ (evalCond (fun _ => .pInt 10) (.cbetween key (.pInt 10) (.pInt 20)) = true)
    ∧ (evalCond (fun _ => .pInt 20) (.cbetween key (.pInt 10) (.pInt 20)) = true)
    ∧ (evalCond (fun _ => .pStr "2024-03-15") (.cmonthEq key (.prim (.pInt 3))) = true)
    ∧ (evalCond (fun _ => .pStr "2024-03-15") (.cyearEq key (.prim (.pInt 2024))) = true)
    := by
  have hcol : get_column cols key = some key := by simp [get_column, h]
  refine ⟨?_, ?_, ?_, ?_, by rfl, by rfl, by rfl, by rfl, by rfl, by rfl⟩
  · intro v hd ht
    cases v with
    | prim p => simp [apply_filter_entry, hcol, pyTruthy] at ht ⊢; simp [ht]
    | vList l => simp [apply_filter_entry, hcol, pyTruthy] at ht ⊢; simp [ht]
    | vDict l => simp [pyIsDict] at hd
  · intro v hd ht
    cases v with
    | prim p => simp [apply_filter_entry, hcol, pyTruthy] at ht ⊢; simp [ht]
    | vList l => simp [apply_filter_entry, hcol, pyTruthy] at ht ⊢; simp [ht]
    | vDict l => simp [pyIsDict] at hd
  · intro hdate
    refine ⟨fun v => ?_, fun v => ?_, fun v => ?_, fun v => ?_, fun v => ?_, fun a b => ?_⟩
      <;> simp [apply_filter_entry, hcol, hdate, apply_numerical_filter, apply_num_op]
      <;> rfl
  · intro hdate
    refine ⟨fun m => ?_, fun y => ?_, fun a b => ?_⟩
      <;> simp [apply_filter_entry, hcol, hdate, apply_date_filter, dictGet]

/-- Witness for the amended filter shapes theorem at column qty of a
schema containing qty and order_date. -/
theorem filter_value_shapes_witness :
    ("qty" ∈ ["qty", "order_date"])
    ∧ apply_filter_entry ["qty", "order_date"] "qty"
        (.vDict [("gt", .prim (.pInt 10))]) = .ok [.cgt "qty" (.prim (.pInt 10))] := by
  have hmem : "qty" ∈ ["qty", "order_date"] := by decide
  exact ⟨hmem,
    ((filter_value_shapes ["qty", "order_date"] "qty" hmem).2.2.1 (by decide)).1
      (.prim (.pInt 10))⟩

/-- C7: unknown filter keys are dropped silently so only entries naming
schema columns contribute, an entry with an unknown key never aborts the
compilation of the remaining filters, and a sort on an unknown column
leaves the query unchanged rather than raising. -/
theorem unknown_columns_dropped (cols : List String) :
    (∀ k v fs, k ∉ cols → apply_filters cols ((k, v) :: fs) = apply_filters cols fs)
    ∧ (∀ fs, apply_filters cols fs
        = apply_filters cols (fs.filter fun kv => decide (kv.1 ∈ cols)))
    ∧ (∀ (q : TabQuery) (cfg : SortConfig) s,
        cfg.column = some s → s ∉ cols → apply_sorting cols q (some cfg) = q) := by
  have hdrop : ∀ k v fs, k ∉ cols →
      apply_filters cols ((k, v) :: fs) = apply_filters cols fs := by
    intro k v fs hk
    have hentry : apply_filter_entry cols k v = .ok [] := by
      simp [apply_filter_entry, get_column, hk]
    simp only [apply_filters, hentry]
    cases hrest : apply_filters cols fs <;> rfl
  refine ⟨hdrop, ?_, ?_⟩
  · intro fs
    induction fs with
    | nil => rfl
    | cons kv rest ih =>
      obtain ⟨k, v⟩ := kv
      by_cases hk : k ∈ cols
      · simp only [List.filter_cons]
        rw [if_pos (by simpa using hk)]
        simp only [apply_filters]
        rw [ih]
      · simp only [List.filter_cons]
        rw [if_neg (by simpa using hk)]
        rw [hdrop k v rest hk]
        exact ih
  · intro q cfg s hc hs
    have hg : get_column cols s = none := by simp [get_column, hs]
    simp [apply_sorting, hc, hg]

/-- An empty tabular query used by the concrete witnesses. -/
def tq0 : TabQuery := { conds := [], orderBy := none, limit := none }

/-- C7 witness: an unknown filter key and an unknown sort column are both
dropped on a schema whose single column is qty. -/
theorem unknown_columns_dropped_witness :
    apply_filters ["qty"] [("ghost", PyVal.vStr "x"), ("qty", PyVal.vInt 5)]
      = apply_filters ["qty"] [("qty", PyVal.vInt 5)]
    ∧ apply_sorting ["qty"] tq0 (some { column := some "ghost", order := none }) = tq0 :=
  ⟨(unknown_columns_dropped ["qty"]).1 "ghost" (PyVal.vStr "x")
      [("qty", PyVal.vInt 5)] (by decide),
   (unknown_columns_dropped ["qty"]).2.2 tq0 { column := some "ghost", order := none }
      "ghost" rfl (by decide)⟩

/-- C2 counterexample: in the grouped revenue path a limit value of -1 is
attached to the compiled query although -1 is not a positive integer
(the tabular apply_limit would have ignored it). -/
theorem grouped_limit_negative_applied :
    execute_revenue_query_compile "orders" ["region", "qty", "unit_price"]
        (some "qty") (some "unit_price") ["region"] none (PyVal.vInt (-1))
      = .grouped { label := "region",
                   value := .agg .fsum (.mul (.col "qty") (.col "unit_price")),
                   orderBy := none, limit := some (PyVal.vInt (-1)) }
    ∧ ¬(pyIsInt (PyVal.vInt (-1)) = true ∧ 0 < pyToInt (PyVal.vInt (-1)))
    ∧ (apply_limit tq0 (PyVal.vInt (-1))).limit = none := by
  refine ⟨by decide, by decide, by decide⟩

/-- C2 as amended: the plain tabular path attaches a limit exactly when
the value is a truthy int instance with positive value and ignores
anything else without touching the rest of the query, while the grouped
revenue path and the grouped generic aggregation path attach any truthy
limit value (negative integers included) and ignore falsy ones; none of
the three paths raises while building the query. -/
theorem limit_application_per_path (q : TabQuery) (lim : PyVal) :
    ((apply_limit q lim).limit
      = if pyTruthy lim && pyIsInt lim && decide (0 < pyToInt lim) then some lim
        else q.limit)
    ∧ (apply_limit q lim).conds = q.conds
    ∧ (apply_limit q lim).orderBy = q.orderBy
    ∧ (∀ tn cols qc pc gb sc gq,
        execute_grouped_revenue_compile tn cols qc pc gb sc lim = .grouped gq →
        gq.limit = if pyTruthy lim then some lim else none)
    ∧ (∀ tn cols gb projections sc gq,
        execute_aggregated_compile tn cols gb projections sc lim = .ok gq →
        gq.limit = if pyTruthy lim then some lim else none) := by
  refine ⟨?_, ?_, ?_, ?_, ?_⟩
  · by_cases hc : (pyTruthy lim && pyIsInt lim && decide (0 < pyToInt lim)) = true
    · simp [apply_limit, hc]
    · have hc2 : (pyTruthy lim && pyIsInt lim && decide (0 < pyToInt lim)) = false := by
        simpa using hc
      simp [apply_limit, hc2]
  · unfold apply_limit
    split <;> rfl
  · unfold apply_limit
    split <;> rfl
  · intro tn cols qc pc gb sc gq hgq
    cases gb with
    | nil => exact absurd hgq (by simp [execute_grouped_revenue_compile])
    | cons g gs =>
      cases hcol : get_column cols g with
      | none =>
        simp only [execute_grouped_revenue_compile, hcol] at hgq
        exact RevenueResult.noConfusion hgq
      | some label =>
        simp only [execute_grouped_revenue_compile, hcol,
          RevenueResult.grouped.injEq] at hgq
        rw [← hgq]
  · intro tn cols gb projections sc gq hgq
    cases gb with
    | nil => exact absurd hgq (by simp [execute_aggregated_compile])
    | cons g gs =>
      cases hcol : get_column cols g with
      | none =>
        simp only [execute_aggregated_compile, hcol] at hgq
        exact Except.noConfusion hgq
      | some label =>
        cases projections with
        | nil =>
          simp only [execute_aggregated_compile, hcol] at hgq
          exact Except.noConfusion hgq
        | cons kv rest =>
          obtain ⟨pk, pv⟩ := kv
          cases he : aggregated_projection_expr tn cols pk pv with
          | error e =>
            simp only [execute_aggregated_compile, hcol, he] at hgq
            exact Except.noConfusion hgq
          | ok e =>
            simp only [execute_aggregated_compile, hcol, he, Except.ok.injEq] at hgq
            rw [← hgq]

/-- The generic projection resolution of get_chart_data computes the
same expression as the one of execute_aggregated_query, with errors
mapped to no result (the two code sites duplicate the same chain). -/
theorem chart_proj_eq_agg_proj (tn : String) (cols : List String) (pk pv : String) :
    chart_projection_expr cols pk pv = (aggregated_projection_expr tn cols pk pv).toOption := by
  unfold chart_projection_expr aggregated_projection_expr
  cases parseAggMatch pv with
  | none =>
    cases hp : get_column cols pk <;> simp [hp, Except.toOption]
  | some fc =>
    obtain ⟨f, c⟩ := fc
    cases hc : get_column cols c <;> cases hp : get_column cols pk <;>
      simp [hc, hp, Except.toOption]

/-- C1 counterexample: for the grouped intent with the single projection
revenue ↦ SUM(qty * unit_price) and empty derived_metrics, on a schema
where qty and unit_price are detected, get_chart_data takes the revenue
branch while the tabular path takes the generic branch: the chart is
computed from the revenue aggregate while the tabular result is a
column-not-found error, so the two decisions are not identical. -/
theorem chart_tabular_decisions_differ :
    revenue_decision_chart (some "qty") (some "unit_price") "revenue"
        "SUM(qty * unit_price)" = true
    ∧ revenue_decision_tabular [] [("revenue", "SUM(qty * unit_price)")] = false
    ∧ chart_grouped_value_expr ["region", "qty", "unit_price"] (some "qty")
        (some "unit_price") ["region"] [("revenue", "SUM(qty * unit_price)")]
      = some (.agg .fsum (.mul (.col "qty") (.col "unit_price")))
    ∧ tabular_grouped_value_expr "orders" ["region", "qty", "unit_price"] (some "qty")
        (some "unit_price") [] ["region"] [("revenue", "SUM(qty * unit_price)")]
        none PyVal.vNone
      = none := by
  refine ⟨by decide, by decide, by decide, by decide⟩

/-- C1 as amended: for a grouped intent with one projection, empty
derived_metrics and both revenue columns detected, the chart and
tabular revenue decisions coincide - and the chart pairs and tabular
rows are computed from the same aggregate expression - provided the
projection key mentions revenue exactly when the projection value
mentions revenue or quantity times price. Without that proviso the two
decisions can disagree. -/
theorem chart_tabular_decision_agreement
    (table_name : String) (cols : List String) (qc pc : String)
    (g : String) (gs : List String) (pk pv : String)
    (sort_config : Option SortConfig) (limit_config : PyVal)
    (hkey : strContains (strLower pk) "revenue"
        = (strContains (strLower pv) "revenue"
            || strContains (strLower pv) "quantity * price")) :
    revenue_decision_chart (some qc) (some pc) pk pv
      = revenue_decision_tabular [] [(pk, pv)]
    ∧ chart_grouped_value_expr cols (some qc) (some pc) (g :: gs) [(pk, pv)]
      = tabular_grouped_value_expr table_name cols (some qc) (some pc) [] (g :: gs)
          [(pk, pv)] sort_config limit_config := by
  have hdec : revenue_decision_chart (some qc) (some pc) pk pv
      = revenue_decision_tabular [] [(pk, pv)] := by
    unfold revenue_decision_chart revenue_decision_tabular
    rw [hkey]
    cases hrv : strContains (strLower pv) "revenue" <;>
      cases hqp : strContains (strLower pv) "quantity * price" <;> simp [hrv, hqp]
  refine ⟨hdec, ?_⟩
  by_cases hd : revenue_decision_chart (some qc) (some pc) pk pv = true
  · have hdt : revenue_decision_tabular [] [(pk, pv)] = true := by rw [← hdec]; exact hd
    cases hcol : get_column cols g with
    | none =>
      simp [chart_grouped_value_expr, get_chart_data_compile, tabular_grouped_value_expr,
        hcol, hd, hdt, execute_revenue_query_compile, execute_grouped_revenue_compile]
    | some label =>
      simp [chart_grouped_value_expr, get_chart_data_compile, tabular_grouped_value_expr,
        hcol, hd, hdt, execute_revenue_query_compile, execute_grouped_revenue_compile]
  · have hd2 : revenue_decision_chart (some qc) (some pc) pk pv = false := by
      simpa using hd
    have hdt : revenue_decision_tabular [] [(pk, pv)] = false := by rw [← hdec]; exact hd2
    have hcp := chart_proj_eq_agg_proj table_name cols pk pv
    cases hcol : get_column cols g with
    | none =>
      simp [chart_grouped_value_expr, get_chart_data_compile, tabular_grouped_value_expr,
        hcol, hd2, hdt, execute_aggregated_compile]
    | some label =>
      cases he : aggregated_projection_expr table_name cols pk pv with
      | error e =>
        rw [he] at hcp
        simp only [Except.toOption] at hcp
        simp [chart_grouped_value_expr, get_chart_data_compile, tabular_grouped_value_expr,
          hcol, hd2, hdt, execute_aggregated_compile, he, hcp]
      | ok e =>
        rw [he] at hcp
        simp only [Except.toOption] at hcp
        simp [chart_grouped_value_expr, get_chart_data_compile, tabular_grouped_value_expr,
          hcol, hd2, hdt, execute_aggregated_compile, he, hcp]

/-- C1 witness: on the projection revenue ↦ sum(revenue), where the key
and value mention revenue consistently, the two decisions and the two
compiled expressions agree. -/
theorem chart_tabular_decision_agreement_witness :
    revenue_decision_chart (some "qty") (some "unit_price") "revenue" "sum(revenue)"
      = revenue_decision_tabular [] [("revenue", "sum(revenue)")]
    ∧ chart_grouped_value_expr ["region", "qty", "unit_price"] (some "qty")
        (some "unit_price") ["region"] [("revenue", "sum(revenue)")]
      = tabular_grouped_value_expr "orders" ["region", "qty", "unit_price"] (some "qty")
          (some "unit_price") [] ["region"] [("revenue", "sum(revenue)")]
          none PyVal.vNone :=
  chart_tabular_decision_agreement "orders" ["region", "qty", "unit_price"] "qty"
    "unit_price" "region" [] "revenue" "sum(revenue)" none PyVal.vNone (by decide)

/-- A concrete connection configuration used by the concrete theorems. -/
def cfg0 : DatabaseConfig :=
  { db_type := "mysql", host := "localhost", port := 3306, username := "root",
    password := "", database := "test" }

/-- A concrete parked chart context used by the concrete theorems. -/
def ctx0 : ChartContext :=
  { database_config := cfg0, table_name := "orders", filters := [],
    group_by := ["region"], projections := [("revenue", "SUM(qty * unit_price)")],
    sort_config := none, limit_config := PyVal.vNone, derived_metrics := [] }

/-- An oracle where connection, table and schema checks all pass and the
completion calls fail. -/
def o_ok : Oracle :=
  { connect_ok := true, table_exists := true, schema_found := true,
    llm_classify := none, llm_reply := none, parsed := none, exec_outcome := .success }

/-- An oracle where the connection succeeds but the requested table does
not exist. -/
def o_missing : Oracle :=
  { connect_ok := true, table_exists := false, schema_found := false,
    llm_classify := none, llm_reply := none, parsed := none, exec_outcome := .success }

/-- A concrete intent whose grouped aggregation has no chart type. -/
def intent0 : Intent :=
  { filters := [], group_by := ["region"], projections := [("qty", "SUM(qty)")],
    sort := none, limit := PyVal.vNone, chart_type := none, derived_metrics := [] }

/-- An oracle like o_ok but whose completion parse yields intent0. -/
def o_parsed : Oracle :=
  { connect_ok := true, table_exists := true, schema_found := true,
    llm_classify := none, llm_reply := none, parsed := some intent0,
    exec_outcome := .success }

/-- C2 witness: the three limit facts at the concrete limit value 3 on
concrete grouped queries. -/
theorem limit_application_per_path_witness :
    ((apply_limit tq0 (PyVal.vInt 3)).limit
      = if pyTruthy (PyVal.vInt 3) && pyIsInt (PyVal.vInt 3)
            && decide (0 < pyToInt (PyVal.vInt 3)) then some (PyVal.vInt 3)
        else tq0.limit)
    ∧ ({ label := "region", value := .agg .fsum (.mul (.col "qty") (.col "unit_price")),
         orderBy := none, limit := some (PyVal.vInt 3) : GroupedQuery }).limit
        = if pyTruthy (PyVal.vInt 3) then some (PyVal.vInt 3) else none := by
  refine ⟨(limit_application_per_path tq0 (PyVal.vInt 3)).1, ?_⟩
  exact (limit_application_per_path tq0 (PyVal.vInt 3)).2.2.2.1
    "orders" ["region", "qty", "unit_price"] "qty" "unit_price" ["region"] none
    { label := "region", value := .agg .fsum (.mul (.col "qty") (.col "unit_price")),
      orderBy := none, limit := some (PyVal.vInt 3) } (by decide)

/-- C3 counterexample: on an unparseable chart-kind answer the state
stays awaiting, but the re-prompt offers the fixed three-kind list pie,
bar, line, which is not the eight-kind list the original disambiguation
prompt offered. -/
theorem reprompt_options_differ_from_original :
    (handle_chart_type_response "hello" ctx0 true .success (some ctx0)).1
      = .awaitingChart "Please specify a valid chart type: pie, bar, or line"
          reprompt_options
    ∧ (handle_chart_type_response "hello" ctx0 true .success (some ctx0)).2.1 = some ctx0
    ∧ reprompt_options ≠ await_options := by
  refine ⟨by decide, by decide, by decide⟩

/-- C3 as amended: whenever a pending chart context exists and the
request text does not parse to any known chart kind, the pending context
is retained (the state stays awaiting) and the caller is re-prompted
with the fixed three-kind list pie, bar, line - a strict subset of, and
different from, the eight-kind list of the original disambiguation
prompt. -/
theorem unknown_kind_keeps_waiting (question : String) (context : ChartContext)
    (connect_ok : Bool) (outcome : ExecOutcome) (st : Option ChartContext)
    (h : parse_chart_type question = none) :
    handle_chart_type_response question context connect_ok outcome st
      = (.awaitingChart "Please specify a valid chart type: pie, bar, or line"
          reprompt_options, st, [])
    ∧ reprompt_options ≠ await_options := by
  refine ⟨?_, by decide⟩
  unfold handle_chart_type_response
  rw [h]

/-- C3 witness at the unparseable answer thanks. -/
theorem unknown_kind_keeps_waiting_witness :
    handle_chart_type_response "thanks" ctx0 true (.failure "boom") (some ctx0)
      = (.awaitingChart "Please specify a valid chart type: pie, bar, or line"
          reprompt_options, some ctx0, [])
    ∧ reprompt_options ≠ await_options :=
  unknown_kind_keeps_waiting "thanks" ctx0 true (.failure "boom") (some ctx0) (by decide)

/-- C5: when the request text parses to a known chart kind, the pending
context is cleared before the parked context is replayed (the replay
runs against an idle session), the session stays idle whatever the
execution outcome - a failed replay included - and the response is never
a renewed chart-kind prompt. -/
theorem chosen_kind_resets_state (question : String) (context : ChartContext)
    (connect_ok : Bool) (outcome : ExecOutcome) (st : Option ChartContext) (k : String)
    (hk : parse_chart_type question = some k) :
    handle_chart_type_response question context connect_ok outcome st
      = process_business_query_dynamic_sm context.database_config connect_ok k outcome none
    ∧ (handle_chart_type_response question context connect_ok outcome st).2.1 = none
    ∧ (handle_chart_type_response question context connect_ok outcome st).1.isAwaiting
        = false := by
  have h1 : handle_chart_type_response question context connect_ok outcome st
      = process_business_query_dynamic_sm context.database_config connect_ok k outcome
          none := by
    unfold handle_chart_type_response
    rw [hk]
    rfl
  refine ⟨h1, ?_, ?_⟩
  · rw [h1]
    unfold process_business_query_dynamic_sm
    split <;> rfl
  · rw [h1]
    unfold process_business_query_dynamic_sm
    split <;> rfl

/-- C5 witness at the answer bar with a failing replay. -/
theorem chosen_kind_resets_state_witness :
    handle_chart_type_response "bar" ctx0 true (.failure "boom") (some ctx0)
      = process_business_query_dynamic_sm ctx0.database_config true "bar"
          (.failure "boom") none
    ∧ (handle_chart_type_response "bar" ctx0 true (.failure "boom") (some ctx0)).2.1 = none
    ∧ (handle_chart_type_response "bar" ctx0 true (.failure "boom")
        (some ctx0)).1.isAwaiting = false :=
  chosen_kind_resets_state "bar" ctx0 true (.failure "boom") (some ctx0) "bar" (by decide)

/-- C4 counterexample: with a pending context, the next request carrying
the arbitrary text hello does not consume the context - it is retained,
not read-once-then-deleted, and the caller is re-prompted. -/
theorem pending_context_retained_on_unparsed_text :
    (handle_query_orm "hello" cfg0 "orders" o_ok (some ctx0)).2.1 = some ctx0
    ∧ (handle_query_orm "hello" cfg0 "orders" o_ok (some ctx0)).1
        = .awaitingChart "Please specify a valid chart type: pie, bar, or line"
            reprompt_options := by
  refine ⟨by decide, by decide⟩

/-- C4 as amended: when a pending chart context exists and the request
passes the connection, table and schema checks, the request text is
always interpreted purely as a chart-kind answer - the conversational
and intent-compilation machinery is bypassed - but the context is
deleted only when the text parses to a known chart kind; on any other
text it is retained and the caller re-prompted. -/
theorem pending_context_gate (question : String) (cfg : DatabaseConfig)
    (table_name : String) (o : Oracle) (ctx : ChartContext)
    (hq : strTrim question ≠ "")
    (hsup : supported_db_type cfg = true) (hconn : o.connect_ok = true)
    (htab : o.table_exists = true) (hschema : o.schema_found = true)
    (hctxsup : supported_db_type ctx.database_config = true) :
    (parse_chart_type question = none →
      (handle_query_orm question cfg table_name o (some ctx)).2.1 = some ctx
      ∧ (handle_query_orm question cfg table_name o (some ctx)).1
          = .awaitingChart "Please specify a valid chart type: pie, bar, or line"
              reprompt_options)
    ∧ (∀ k, parse_chart_type question = some k →
        (handle_query_orm question cfg table_name o (some ctx)).2.1 = none
        ∧ (handle_query_orm question cfg table_name o (some ctx)).1
            = .processed k o.exec_outcome) := by
  constructor
  · intro hp
    simp [handle_query_orm, create_dynamic_engine_trace, hsup, hconn, htab, hschema, hq,
      get_pending_chart_context, handle_chart_type_response, hp]
  · intro k hp
    simp [handle_query_orm, create_dynamic_engine_trace, hsup, hconn, htab, hschema, hq,
      get_pending_chart_context, handle_chart_type_response, hp,
      clear_pending_chart_context, process_business_query_dynamic_sm, hctxsup]

/-- C4 witness: the chart-kind answer bar consumes the pending context
and replays it. -/
theorem pending_context_gate_witness :
    (handle_query_orm "bar" cfg0 "orders" o_ok (some ctx0)).2.1 = none
    ∧ (handle_query_orm "bar" cfg0 "orders" o_ok (some ctx0)).1
        = .processed "bar" o_ok.exec_outcome :=
  (pending_context_gate "bar" cfg0 "orders" o_ok ctx0 (by decide) (by decide) rfl rfl rfl
    (by decide)).2 "bar" (by decide)

/-- C8: when the connection test succeeds but the requested table does
not exist, handle_query_orm returns its 400 response with the test
engine opened and never disposed - the trace is unbalanced - while the
surviving paths (schema found, intent parsed or not) dispose every
engine and session they open. The spec requires every exit path to
release its resources, so this missing-table path is a resource leak. -/
theorem engine_leak_on_missing_table :
    (handle_query_orm "show revenue" cfg0 "orders" o_missing none).1
      = .errResp "Database connection failed" 400
    ∧ (handle_query_orm "show revenue" cfg0 "orders" o_missing none).2.2
        = [REvent.engineOpen]
    ∧ trace_balanced (handle_query_orm "show revenue" cfg0 "orders" o_missing none).2.2
        = false
    ∧ trace_balanced (handle_query_orm "show revenue" cfg0 "orders" o_ok none).2.2 = true
    ∧ trace_balanced (handle_query_orm "show revenue" cfg0 "orders" o_parsed none).2.2
        = true := by
  refine ⟨by decide, by decide, by decide, by decide, by decide⟩

end BIAgent
